import Mathlib

set_option autoImplicit false

/-!
Shallow embedding of the assimetria articles backend (TypeScript/Express/Postgres).

The embedding follows the wired composition root (backend/src/index.ts):
Router -> zod validation middleware -> ArticleController -> ArticleService ->
ArticleRepository (the variant whose list operations take required, already
validated parameters) and AiGenerateArticleRepository (the OpenAI-backed
variant).  Dates are embedded as integers (milliseconds since the epoch, the
value of Date.getTime), query parameters that zod would coerce to numbers are
embedded as already-coerced integers, and the Postgres database is embedded as
a list of article rows together with an explicit log of the SQL statements a
request issues.
-/

/-- Sort direction accepted by the article endpoints (models/article.ts). -/
inductive SortDirection where
  | asc
  | desc
deriving DecidableEq, Repr

/-- A value bound to a positional SQL parameter. -/
inductive DbValue where
  | str (s : String)
  | nat (n : Nat)
  | null
deriving DecidableEq, Repr

/-- A parameterized SQL statement handed to the query runner. -/
structure SqlStmt where
  text : String
  params : List DbValue
deriving DecidableEq, Repr

/-- The persisted article entity (models/article.ts, table articles). -/
structure Article where
  id : Nat
  title : String
  content : String
  photoUrl : Option String
  createdAt : Int
  updatedAt : Int
deriving DecidableEq, Repr

/-- Raw list-request query parameters as they reach the zod middleware:
absent parameters are none, numeric parameters are taken already coerced the
way z.coerce.number().int() would leave an integral input. -/
structure RawListQuery where
  page : Option Int := none
  pageSize : Option Int := none
  sortDirection : Option String := none
  fromDate : Option Int := none
  toDate : Option Int := none
deriving DecidableEq, Repr

/-- The validated list query (the output type of listArticlesSchema). -/
structure ListArticlesQuery where
  page : Int
  pageSize : Int
  sortDirection : SortDirection
  fromDate : Option Int
  toDate : Option Int
deriving DecidableEq, Repr

/-- Embeds the page field of listArticlesSchema:
z.coerce.number().int().min(1).default(1).  A missing value defaults to 1;
a value below 1 fails validation (zod min rejects, it does not clamp). -/
def parsePage : Option Int → Except String Int
  | none => Except.ok 1
  | some n =>
      if 1 ≤ n then Except.ok n
      else Except.error "Number must be greater than or equal to 1"

/-- Embeds the pageSize field of listArticlesSchema:
z.coerce.number().int().min(1).default(10).  Note that the schema imposes no
upper bound: there is no .max call in the source. -/
def parsePageSize : Option Int → Except String Int
  | none => Except.ok 10
  | some n =>
      if 1 ≤ n then Except.ok n
      else Except.error "Number must be greater than or equal to 1"

/-- Embeds the sortDirection field of listArticlesSchema:
z.enum with the exact lowercase members asc and desc, defaulting to desc.
zod enums compare strings exactly, so any other spelling is rejected. -/
def parseSortDirection : Option String → Except String SortDirection
  | none => Except.ok SortDirection.desc
  | some s =>
      if s = "asc" then Except.ok SortDirection.asc
      else if s = "desc" then Except.ok SortDirection.desc
      else Except.error "Invalid enum value"

/-- Embeds listArticlesSchema.parse: the four field parsers followed by the
refinement that rejects from > to when both dates are present.  zod reports
all issues at once while Except stops at the first; this difference only
affects which message is reported, never whether parsing succeeds. -/
def listArticlesSchemaParse (q : RawListQuery) : Except String ListArticlesQuery :=
  match parsePage q.page with
  | Except.error e => Except.error e
  | Except.ok page =>
    match parsePageSize q.pageSize with
    | Except.error e => Except.error e
    | Except.ok pageSize =>
      match parseSortDirection q.sortDirection with
      | Except.error e => Except.error e
      | Except.ok dir =>
        match q.fromDate, q.toDate with
        | some f, some t =>
            if f ≤ t then
              Except.ok ⟨page, pageSize, dir, some f, some t⟩
            else
              Except.error "The start date must be earlier than or equal to the end date"
        | f, t => Except.ok ⟨page, pageSize, dir, f, t⟩

/-- Embeds normalizePage of the legacy repository variant: a missing, falsy
(zero) or below-1 page becomes 1, everything else is kept (Math.floor is the
identity on the integral inputs this embedding covers). -/
def LegacyArticleRepository.normalizePage : Option Int → Int
  | none => 1
  | some n => if n = 0 then 1 else if n < 1 then 1 else n

/-- Embeds normalizePageSize of the legacy repository variant: a missing or
falsy (zero) page size becomes the default 10, a value below 1 becomes 1 and
everything else is clamped to the maximum page size 50. -/
def LegacyArticleRepository.normalizePageSize : Option Int → Int
  | none => 10
  | some n => if n = 0 then 10 else if n < 1 then 1 else min n 50

/-- Embeds the JavaScript toLowerCase call on the ASCII strings a sort
direction can be, one character at a time. -/
def jsToLowerCase (s : String) : String :=
  String.mk (s.data.map Char.toLower)

/-- Embeds normalizeSortDirection of the legacy repository variant: a missing
or empty (falsy) direction becomes DESC, otherwise the string is lowercased
and compared with asc; anything whose lowercase form is not asc becomes DESC. -/
def LegacyArticleRepository.normalizeSortDirection : Option String → String
  | none => "DESC"
  | some d =>
      if d = "" then "DESC"
      else if jsToLowerCase d = "asc" then "ASC" else "DESC"

/-- Input of a partial update (models/article.ts UpdateArticleInput): for
photoUrl the outer option is presence of the field, the inner option is the
nullable string value. -/
structure UpdateArticleInput where
  title : Option String := none
  content : Option String := none
  photoUrl : Option (Option String) := none
deriving DecidableEq, Repr

/-- Converts a nullable string into the value bound to a SQL parameter. -/
def dbValueOfNullable : Option String → DbValue
  | some s => DbValue.str s
  | none => DbValue.null

/-- Embeds ArticleRepository.buildUpdateStatement: pushes one rendered
assignment string and one value per supplied field, in source order title,
content, photo_url, with an explicit positional parameter counter starting
at 1. -/
def ArticleRepository.buildUpdateStatement (input : UpdateArticleInput) :
    List String × List DbValue := Id.run do
  let mut assignments : List String := []
  let mut values : List DbValue := []
  let mut paramIndex : Nat := 1
  if let some t := input.title then
    assignments := assignments ++ ["title = $" ++ toString paramIndex]
    values := values ++ [DbValue.str t]
    paramIndex := paramIndex + 1
  if let some c := input.content then
    assignments := assignments ++ ["content = $" ++ toString paramIndex]
    values := values ++ [DbValue.str c]
    paramIndex := paramIndex + 1
  if let some p := input.photoUrl then
    assignments := assignments ++ ["photo_url = $" ++ toString paramIndex]
    values := values ++ [dbValueOfNullable p]
    paramIndex := paramIndex + 1
  return (assignments, values)

/-- The three columns a partial update may touch. -/
inductive UpdateColumn where
  | title
  | content
  | photoUrl
deriving DecidableEq, Repr

/-- SQL column name of an updatable column. -/
def UpdateColumn.sqlName : UpdateColumn → String
  | UpdateColumn.title => "title"
  | UpdateColumn.content => "content"
  | UpdateColumn.photoUrl => "photo_url"

/-- The columns an update input supplies, in the source order of
buildUpdateStatement. -/
def suppliedColumns (input : UpdateArticleInput) : List UpdateColumn :=
  (if input.title.isSome then [UpdateColumn.title] else []) ++
  (if input.content.isSome then [UpdateColumn.content] else []) ++
  (if input.photoUrl.isSome then [UpdateColumn.photoUrl] else [])

/-- The parameter values an update input supplies, in the same order. -/
def suppliedValues (input : UpdateArticleInput) : List DbValue :=
  (match input.title with | some t => [DbValue.str t] | none => []) ++
  (match input.content with | some c => [DbValue.str c] | none => []) ++
  (match input.photoUrl with | some p => [dbValueOfNullable p] | none => [])

/-- Renders a column list as SET-clause assignment strings with 1-based
sequential positional parameters. -/
def renderAssignments (cols : List UpdateColumn) : List String :=
  (List.enumFrom 1 cols).map (fun p => p.2.sqlName ++ " = $" ++ toString p.1)

/-- Modelled from the spec: the effect of Postgres executing the generated
UPDATE statement on one matching row.  The columns named by the SET clause are
overwritten with their bound values; the articles table refreshes updated_at
on every successful mutation (spec section 3; the DDL and trigger that decide
this are not part of src). -/
def applyUpdateInput (now : Int) (changes : UpdateArticleInput) (r : Article) : Article :=
  let r1 := match changes.title with
    | some t => { r with title := t }
    | none => r
  let r2 := match changes.content with
    | some c => { r1 with content := c }
    | none => r1
  let r3 := match changes.photoUrl with
    | some p => { r2 with photoUrl := p }
    | none => r2
  { r3 with updatedAt := now }

/-- Embeds ArticleRepository.updateArticle: builds the SET clause, throws
before issuing any SQL when no field was supplied, otherwise issues the one
UPDATE statement (set values first, article id bound last) and returns the
returned row, or none when no row matched. -/
def ArticleRepository.updateArticle (db : List Article) (now : Int) (id : Nat)
    (changes : UpdateArticleInput) :
    (Except String (Option Article) × List Article) × List SqlStmt :=
  let built := ArticleRepository.buildUpdateStatement changes
  let assignments := built.1
  let values := built.2
  if assignments.length = 0 then
    ((Except.error "At least one field must be provided to update an article", db), [])
  else
    let idParamIndex := assignments.length + 1
    let queryText :=
      "UPDATE articles SET " ++ String.intercalate ", " assignments ++
      " WHERE id = $" ++ toString idParamIndex ++
      " RETURNING id, title, content, photo_url, created_at, updated_at;"
    let newDb := db.map (fun r => if r.id = id then applyUpdateInput now changes r else r)
    let returned := (newDb.filter (fun r => r.id = id)).head?
    ((Except.ok returned, newDb), [⟨queryText, values ++ [DbValue.nat id]⟩])

/-- The DELETE statement text issued by ArticleRepository.deleteArticle. -/
def deleteQueryText : String :=
  "DELETE FROM articles WHERE id = $1 RETURNING id;"

/-- Embeds ArticleRepository.deleteArticle: issues the one DELETE statement
and reports whether any row was removed (rowCount greater than zero). -/
def ArticleRepository.deleteArticle (db : List Article) (id : Nat) :
    (Bool × List Article) × List SqlStmt :=
  let remaining := db.filter (fun r => ¬ r.id = id)
  let deletedRows := db.length - remaining.length
  ((decide (deletedRows > 0), remaining), [⟨deleteQueryText, [DbValue.nat id]⟩])

/-- Input of a create (models/article.ts CreateArticleInput); a missing and a
null photoUrl both reach the INSERT as null through the photoUrl-or-null
coalescing in the source. -/
structure CreateArticleInput where
  title : String
  content : String
  photoUrl : Option String := none
deriving DecidableEq, Repr

/-- Embeds ArticleRepository.createArticle.  The INSERT binds title, content
and photo_url.  Modelled from the spec: the store generates a fresh id and
sets createdAt and updatedAt at creation (spec section 3; the DDL that decides
the defaults is not part of src), embedded as the explicit newId and now
arguments. -/
def ArticleRepository.createArticle (db : List Article) (newId : Nat) (now : Int)
    (input : CreateArticleInput) : (Article × List Article) × List SqlStmt :=
  let row : Article :=
    { id := newId, title := input.title, content := input.content,
      photoUrl := input.photoUrl, createdAt := now, updatedAt := now }
  ((row, db ++ [row]),
   [⟨"INSERT INTO articles (title, content, photo_url) VALUES ($1, $2, $3) RETURNING id, title, content, photo_url, created_at, updated_at;",
     [DbValue.str input.title, DbValue.str input.content, dbValueOfNullable input.photoUrl]⟩])

/-- List parameters after validation, as the service and the wired repository
receive them (models/article.ts ListArticlesParams). -/
structure ListArticlesParams where
  page : Nat
  pageSize : Nat
  sortDirection : SortDirection
deriving DecidableEq, Repr

/-- Pagination metadata of a list result. -/
structure PaginationMeta where
  page : Nat
  pageSize : Nat
  totalItems : Nat
  totalPages : Nat
  hasNextPage : Bool
deriving DecidableEq, Repr

/-- A page of articles plus its pagination metadata. -/
structure PaginatedArticlesResult where
  data : List Article
  pagination : PaginationMeta
deriving DecidableEq, Repr

/-- Embeds Math.ceil(a / b) for a natural count a and positive page size b
(exact for every value either use site can produce). -/
def mathCeilDiv (a b : Nat) : Nat := (a + b - 1) / b

/-- The SQL keyword interpolated for a sort direction. -/
def SortDirection.sqlText : SortDirection → String
  | SortDirection.asc => "asc"
  | SortDirection.desc => "desc"

/-- Modelled from the spec: the rows the ORDER BY created_at clause yields,
ascending or descending (the ordering itself is executed by Postgres, outside
src). -/
def sortByCreatedAt (dir : SortDirection) (rows : List Article) : List Article :=
  match dir with
  | SortDirection.asc => rows.mergeSort (fun a b => a.createdAt ≤ b.createdAt)
  | SortDirection.desc => rows.mergeSort (fun a b => b.createdAt ≤ a.createdAt)

/-- Embeds ArticleRepository.listArticles of the wired repository: computes
offset (page - 1) * pageSize, issues the page SELECT and the COUNT statement,
and assembles the pagination metadata exactly as the source does (totalPages
is 0 for an empty table, otherwise Math.ceil of totalItems over pageSize;
hasNextPage is page < totalPages). -/
def ArticleRepository.listArticles (db : List Article) (params : ListArticlesParams) :
    PaginatedArticlesResult × List SqlStmt :=
  let page := params.page
  let pageSize := params.pageSize
  let offset := (page - 1) * pageSize
  let items := ((sortByCreatedAt params.sortDirection db).drop offset).take pageSize
  let totalItems := db.length
  let totalPages := if totalItems = 0 then 0 else mathCeilDiv totalItems pageSize
  ({ data := items,
     pagination :=
       { page := page, pageSize := pageSize, totalItems := totalItems,
         totalPages := totalPages, hasNextPage := decide (page < totalPages) } },
   [⟨"SELECT id, title, content, photo_url, created_at, updated_at FROM articles ORDER BY created_at " ++
       params.sortDirection.sqlText ++ " LIMIT $1 OFFSET $2;",
     [DbValue.nat pageSize, DbValue.nat offset]⟩,
    ⟨"SELECT COUNT(*)::text AS count FROM articles;", []⟩])

/-- Date-range list parameters (models/article.ts GetArticlesByDatesParams). -/
structure GetArticlesByDatesParams where
  fromDate : Int
  toDate : Int
  page : Nat
  pageSize : Nat
  sortDirection : SortDirection
deriving DecidableEq, Repr

/-- Embeds ArticleRepository.listArticlesByDateRange: both the page SELECT and
the COUNT statement carry the inclusive WHERE created_at bounds; pagination
metadata is assembled from the filtered count the same way listArticles
assembles it. -/
def ArticleRepository.listArticlesByDateRange (db : List Article)
    (params : GetArticlesByDatesParams) : PaginatedArticlesResult × List SqlStmt :=
  let page := params.page
  let pageSize := params.pageSize
  let offset := (page - 1) * pageSize
  let matching := db.filter
    (fun r => params.fromDate ≤ r.createdAt ∧ r.createdAt ≤ params.toDate)
  let items := ((sortByCreatedAt params.sortDirection matching).drop offset).take pageSize
  let totalItems := matching.length
  let totalPages := if totalItems = 0 then 0 else mathCeilDiv totalItems pageSize
  ({ data := items,
     pagination :=
       { page := page, pageSize := pageSize, totalItems := totalItems,
         totalPages := totalPages, hasNextPage := decide (page < totalPages) } },
   [⟨"SELECT id, title, content, photo_url, created_at, updated_at FROM articles WHERE created_at >= $3 AND created_at <= $4 ORDER BY created_at " ++
       params.sortDirection.sqlText ++ " LIMIT $1 OFFSET $2;",
     [DbValue.nat pageSize, DbValue.nat offset]⟩,
    ⟨"SELECT COUNT(*)::text AS count FROM articles WHERE created_at >= $1 AND created_at <= $2;", []⟩])

/-- Domain errors raised by the article service (services/articlesService.ts);
repoError carries the message of a plain Error escaping the repository. -/
inductive ServiceError where
  | articleNotFound (id : Nat)
  | invalidDateRange (fromDate toDate : Int)
  | repoError (msg : String)
  | providerError (msg : String)
deriving DecidableEq, Repr

/-- Embeds ArticleService.listArticlesByDateRange: ensureValidDateRange throws
InvalidDateRangeError when from is strictly after to, before the repository is
invoked (so no SQL statement is issued); otherwise the repository call runs. -/
def ArticleService.listArticlesByDateRange (db : List Article)
    (params : GetArticlesByDatesParams) :
    Except ServiceError PaginatedArticlesResult × List SqlStmt :=
  if params.fromDate > params.toDate then
    (Except.error (ServiceError.invalidDateRange params.fromDate params.toDate), [])
  else
    let res := ArticleRepository.listArticlesByDateRange db params
    (Except.ok res.1, res.2)

/-- Embeds ArticleService.updateArticle: forwards to the repository and turns
an absent row into ArticleNotFoundError; the repository throw for an empty
update propagates as the plain error it is in the source. -/
def ArticleService.updateArticle (db : List Article) (now : Int) (id : Nat)
    (changes : UpdateArticleInput) :
    (Except ServiceError Article × List Article) × List SqlStmt :=
  match ArticleRepository.updateArticle db now id changes with
  | ((Except.error m, db2), stmts) => ((Except.error (ServiceError.repoError m), db2), stmts)
  | ((Except.ok none, db2), stmts) =>
      ((Except.error (ServiceError.articleNotFound id), db2), stmts)
  | ((Except.ok (some a), db2), stmts) => ((Except.ok a, db2), stmts)

/-- Embeds ArticleService.deleteArticle: a false from the repository becomes
ArticleNotFoundError, a true becomes a void success. -/
def ArticleService.deleteArticle (db : List Article) (id : Nat) :
    Except ServiceError Unit × List Article :=
  let res := ArticleRepository.deleteArticle db id
  if res.1.1 then (Except.ok (), res.1.2)
  else (Except.error (ServiceError.articleNotFound id), res.1.2)

/-- A chat message after validation (the shape the OpenAI client receives). -/
structure ChatMessage where
  role : String
  content : Option String
  name : Option String := none
deriving DecidableEq, Repr

/-- Parameters of the generate endpoint (aiGenerateArticleRepository.ts). -/
structure GenerateArticleParams where
  model : String
  messages : List ChatMessage
deriving DecidableEq, Repr

/-- Provider configuration (aiGenerateArticleRepository.ts). -/
structure AiArticleProviderConfig where
  endpoint : String
  apiKey : String
deriving DecidableEq, Repr

/-- The message part of one completion choice returned by the OpenAI API. -/
structure ChatCompletionMessage where
  content : Option String
deriving DecidableEq, Repr

/-- One completion choice returned by the OpenAI API. -/
structure ChatChoice where
  message : ChatCompletionMessage
deriving DecidableEq, Repr

/-- The response of the chat completions call; the environment determines it,
so the embedding takes it as an argument. -/
structure ChatCompletionResponse where
  choices : List ChatChoice
deriving DecidableEq, Repr

/-- The draft the provider returns (aiGenerateArticleRepository.ts). -/
structure ProviderArticleResponse where
  title : String
  content : String
  photoUrl : Option String
deriving DecidableEq, Repr

/-- Embeds AiGenerateArticleRepository.fetchArticleFromProvider of the wired
OpenAI-backed variant: when the api client is present and the configured
endpoint is truthy (non-empty), the chat completions call is made and the
first choice text is reused for both title and content, substituting the
empty string when the content is null; otherwise it throws.  Reading the
first choice of an empty choices array throws a TypeError in the source,
embedded as the error case.  The second component records the request sent to
the provider, none when no call was made. -/
def AiGenerateArticleRepository.fetchArticleFromProvider (hasApiClient : Bool)
    (config : AiArticleProviderConfig) (response : ChatCompletionResponse)
    (params : GenerateArticleParams) :
    Except String ProviderArticleResponse × Option (String × List ChatMessage) :=
  if hasApiClient && !(config.endpoint = "") then
    match response.choices with
    | [] => (Except.error "TypeError: cannot read choices[0] of an empty array",
             some (params.model, params.messages))
    | choice :: _ =>
        (Except.ok
          { title := choice.message.content.getD ""
            content := choice.message.content.getD ""
            photoUrl := none },
         some (params.model, params.messages))
  else
    (Except.error "AI API client and configuration are required", none)

/-- Embeds AiGenerateArticleRepository.generateArticle: maps the provider
draft onto a CreateArticleInput, coalescing a null photoUrl. -/
def AiGenerateArticleRepository.generateArticle (hasApiClient : Bool)
    (config : AiArticleProviderConfig) (response : ChatCompletionResponse)
    (params : GenerateArticleParams) :
    Except String CreateArticleInput × Option (String × List ChatMessage) :=
  let fetched := AiGenerateArticleRepository.fetchArticleFromProvider
    hasApiClient config response params
  (fetched.1.map (fun pr =>
    { title := pr.title, content := pr.content, photoUrl := pr.photoUrl }),
   fetched.2)

/-- Embeds ArticleService.generateArticle: obtains the draft from the AI
repository and persists it through ArticleRepository.createArticle, the same
path a direct create takes; a provider failure propagates and nothing is
persisted. -/
def ArticleService.generateArticle (db : List Article) (newId : Nat) (now : Int)
    (hasApiClient : Bool) (config : AiArticleProviderConfig)
    (response : ChatCompletionResponse) (params : GenerateArticleParams) :
    (Except ServiceError Article × List Article) × Option (String × List ChatMessage) :=
  match AiGenerateArticleRepository.generateArticle hasApiClient config response params with
  | (Except.error m, req) => ((Except.error (ServiceError.providerError m), db), req)
  | (Except.ok input, req) =>
      let created := ArticleRepository.createArticle db newId now input
      ((Except.ok created.1.1, created.1.2), req)

/-- A raw message object of the generate body before validation: the outer
option on content is field presence, the inner option is null versus string;
extraKeys lists any unrecognized keys present on the object. -/
structure RawChatMessage where
  role : String
  content : Option (Option String) := none
  name : Option String := none
  extraKeys : List String := []
deriving DecidableEq, Repr

/-- Embeds the per-message discriminated union of generateArticleSchema:
system and user messages require a string content, assistant content may be
absent or null; every branch is strict, rejecting unrecognized keys; any
other role fails the discriminator. -/
def validateMessage (m : RawChatMessage) : Except String ChatMessage :=
  if m.role = "system" ∨ m.role = "user" then
    match m.content with
    | some (some s) =>
        if m.extraKeys = [] then Except.ok ⟨m.role, some s, m.name⟩
        else Except.error "Unrecognized key(s) in object"
    | _ => Except.error "Required"
  else if m.role = "assistant" then
    if m.extraKeys = [] then Except.ok ⟨m.role, m.content.join, m.name⟩
    else Except.error "Unrecognized key(s) in object"
  else Except.error "Invalid discriminator value"

/-- The raw generate body before validation. -/
structure RawGenerateBody where
  model : Option String := none
  messages : Option (List RawChatMessage) := none
deriving DecidableEq, Repr

/-- Embeds generateArticleSchema.parse: model must be a string of length at
least 1, messages must be an array whose members each validate; the array
itself carries no minimum length. -/
def generateArticleSchemaParse (b : RawGenerateBody) :
    Except String GenerateArticleParams :=
  match b.model with
  | none => Except.error "Required"
  | some s =>
    if s.length ≥ 1 then
      match b.messages with
      | none => Except.error "Required"
      | some ms =>
        match ms.mapM validateMessage with
        | Except.error e => Except.error e
        | Except.ok msgs => Except.ok ⟨s, msgs⟩
    else Except.error "String must contain at least 1 character(s)"

/-- The string-building repository function agrees with its structured
description: the assignments are the supplied columns rendered in source
order with 1-based sequential parameters, and the values are the supplied
values in the same order. -/
theorem buildUpdateStatement_eq (input : UpdateArticleInput) :
    ArticleRepository.buildUpdateStatement input =
      (renderAssignments (suppliedColumns input), suppliedValues input) := by
  rcases input with ⟨t, c, p⟩
  cases t <;> cases c <;> cases p <;> rfl

/-- Bounds characterizing mathCeilDiv as the ceiling of the true quotient. -/
theorem mathCeilDiv_bounds (a b : Nat) (hb : 0 < b) :
    a ≤ mathCeilDiv a b * b ∧ mathCeilDiv a b * b < a + b := by
  have h := Nat.div_add_mod (a + b - 1) b
  have hr : (a + b - 1) % b < b := Nat.mod_lt _ hb
  have hmul : (a + b - 1) / b * b = b * ((a + b - 1) / b) :=
    Nat.mul_comm _ _
  unfold mathCeilDiv
  omega

/-- A successful page parse is at least 1. -/
theorem parsePage_ok_ge_one (o : Option Int) (v : Int)
    (h : parsePage o = Except.ok v) : 1 ≤ v := by
  cases o with
  | none =>
      simp only [parsePage] at h
      cases h
      omega
  | some n =>
      simp only [parsePage] at h
      by_cases hn : 1 ≤ n
      · rw [if_pos hn] at h
        cases h
        exact hn
      · rw [if_neg hn] at h
        cases h

/-- A successful page-size parse is at least 1. -/
theorem parsePageSize_ok_ge_one (o : Option Int) (v : Int)
    (h : parsePageSize o = Except.ok v) : 1 ≤ v := by
  cases o with
  | none =>
      simp only [parsePageSize] at h
      cases h
      omega
  | some n =>
      simp only [parsePageSize] at h
      by_cases hn : 1 ≤ n
      · rw [if_pos hn] at h
        cases h
        exact hn
      · rw [if_neg hn] at h
        cases h

/-- C1 counterexample: the claim says a pageSize above the maximum of 50 is
silently clamped to 50 at the validation boundary and a page below 1 is
coerced to 1.  At pageSize 100 the schema succeeds with 100 unchanged (so the
service receives a pageSize above 50, not 50), and at page 0 the schema
rejects with a validation issue instead of coercing to 1. -/
theorem C1_counterexample :
    listArticlesSchemaParse { pageSize := some 100 } =
      Except.ok { page := 1, pageSize := 100, sortDirection := SortDirection.desc,
                  fromDate := none, toDate := none }
    ∧ listArticlesSchemaParse { pageSize := some 100 } ≠
      Except.ok { page := 1, pageSize := 50, sortDirection := SortDirection.desc,
                  fromDate := none, toDate := none }
    ∧ listArticlesSchemaParse { page := some 0 } =
      Except.error "Number must be greater than or equal to 1"
    ∧ listArticlesSchemaParse { page := some 0 } ≠
      Except.ok { page := 1, pageSize := 10, sortDirection := SortDirection.desc,
                  fromDate := none, toDate := none } := by
  refine ⟨rfl, ?_, rfl, ?_⟩ <;> intro h <;> cases h

/-- C1 (amended): the validation boundary enforces no upper bound on
pageSize — a requested pageSize above 50 passes through unchanged, so the
service can receive a pageSize above 50 — while a page (or pageSize) below 1
is rejected with a validation error rather than coerced, so the service never
receives a page below 1; absent values default to page 1 and pageSize 10. -/
theorem C1_amended_validation_bounds :
    (∀ (q : RawListQuery) (res : ListArticlesQuery),
        listArticlesSchemaParse q = Except.ok res → 1 ≤ res.page ∧ 1 ≤ res.pageSize)
    ∧ listArticlesSchemaParse { pageSize := some 100 } =
        Except.ok { page := 1, pageSize := 100, sortDirection := SortDirection.desc,
                    fromDate := none, toDate := none }
    ∧ listArticlesSchemaParse { page := some 0 } =
        Except.error "Number must be greater than or equal to 1"
    ∧ listArticlesSchemaParse {} =
        Except.ok { page := 1, pageSize := 10, sortDirection := SortDirection.desc,
                    fromDate := none, toDate := none } := by
  refine ⟨?_, rfl, rfl, rfl⟩
  intro q res h
  unfold listArticlesSchemaParse at h
  cases hp : parsePage q.page with
  | error e => rw [hp] at h; cases h
  | ok page =>
  rw [hp] at h
  cases hs : parsePageSize q.pageSize with
  | error e => rw [hs] at h; cases h
  | ok ps =>
  rw [hs] at h
  cases hd : parseSortDirection q.sortDirection with
  | error e => rw [hd] at h; cases h
  | ok dir =>
  rw [hd] at h
  have h1 := parsePage_ok_ge_one _ _ hp
  have h2 := parsePageSize_ok_ge_one _ _ hs
  cases hf : q.fromDate <;> cases ht : q.toDate <;> rw [hf, ht] at h
  · cases h; exact ⟨h1, h2⟩
  · cases h; exact ⟨h1, h2⟩
  · cases h; exact ⟨h1, h2⟩
  · by_cases hle : q.fromDate.get (by rw [hf]; rfl) ≤ q.toDate.get (by rw [ht]; rfl)
    all_goals
      rename_i f t
      simp only [] at h
      split at h
      · cases h; exact ⟨h1, h2⟩
      · cases h

/-- C1 witness: the amended theorem applied at the concrete request whose
pageSize is 100. -/
theorem C1_witness : (1 : Int) ≤ 1 ∧ (1 : Int) ≤ 100 :=
  C1_amended_validation_bounds.1 { pageSize := some 100 }
    { page := 1, pageSize := 100, sortDirection := SortDirection.desc,
      fromDate := none, toDate := none } rfl

/-- C2: an update with zero supplied fields is rejected with the repository
error (the 400 validation outcome of the spec) before the query runner is
reached: the returned statement log is empty, so no SQL statement is issued,
and the database is untouched. -/
theorem C2_empty_update_no_sql (db : List Article) (now : Int) (id : Nat) :
    ArticleService.updateArticle db now id {} =
      ((Except.error (ServiceError.repoError
          "At least one field must be provided to update an article"), db), []) := by
  rfl

/-- C3 counterexample: the claim says sort direction strings are accepted
case-insensitively, with ASC and asc selecting the same ordering.  At the
validation boundary the uppercase spelling ASC is rejected with a validation
error while asc is accepted, so the two spellings do not produce the same
outcome for a list request. -/
theorem C3_counterexample :
    listArticlesSchemaParse { sortDirection := some "ASC" } =
      Except.error "Invalid enum value"
    ∧ listArticlesSchemaParse { sortDirection := some "asc" } =
      Except.ok { page := 1, pageSize := 10, sortDirection := SortDirection.asc,
                  fromDate := none, toDate := none }
    ∧ listArticlesSchemaParse { sortDirection := some "ASC" } ≠
      listArticlesSchemaParse { sortDirection := some "asc" } := by
  refine ⟨rfl, rfl, ?_⟩
  intro h
  cases h

/-- C3 (amended): the validation boundary accepts exactly the lowercase
spellings asc and desc (rejecting ASC) and defaults to desc, most recent
first, when the parameter is absent; only the legacy repository variant
normalizes sort direction case-insensitively, mapping any string whose
lowercase form is asc to ASC and everything else to DESC. -/
theorem C3_amended_sort_direction :
    parseSortDirection none = Except.ok SortDirection.desc
    ∧ parseSortDirection (some "asc") = Except.ok SortDirection.asc
    ∧ parseSortDirection (some "desc") = Except.ok SortDirection.desc
    ∧ parseSortDirection (some "ASC") = Except.error "Invalid enum value"
    ∧ LegacyArticleRepository.normalizeSortDirection (some "ASC") = "ASC"
    ∧ LegacyArticleRepository.normalizeSortDirection (some "asc") = "ASC"
    ∧ LegacyArticleRepository.normalizeSortDirection (some "DeSc") = "DESC"
    ∧ LegacyArticleRepository.normalizeSortDirection none = "DESC" := by
  refine ⟨rfl, rfl, rfl, rfl, ?_, ?_, ?_, rfl⟩ <;> decide

/-- The pagination record listArticles assembles, written out. -/
theorem listArticles_pagination_eq (db : List Article) (params : ListArticlesParams) :
    (ArticleRepository.listArticles db params).1.pagination =
      { page := params.page, pageSize := params.pageSize, totalItems := db.length,
        totalPages := if db.length = 0 then 0 else mathCeilDiv db.length params.pageSize,
        hasNextPage := decide (params.page <
          (if db.length = 0 then 0 else mathCeilDiv db.length params.pageSize)) } := rfl

/-- C4: for a validated page of at least 1 and pageSize between 1 and 50, the
metadata of the wired listArticles satisfies totalPages equals the ceiling of
totalItems over pageSize when totalItems is positive (characterized by the
two ceiling bounds), totalPages is 0 when totalItems is 0, hasNextPage holds
exactly when page is below totalPages, and an empty table yields an empty
page with no failure. -/
theorem C4_pagination_metadata (db : List Article) (params : ListArticlesParams)
    (hpage : 1 ≤ params.page) (hps1 : 1 ≤ params.pageSize) (hps2 : params.pageSize ≤ 50) :
    ((ArticleRepository.listArticles db params).1.pagination.totalItems = 0 →
      (ArticleRepository.listArticles db params).1.pagination.totalPages = 0)
    ∧ (0 < (ArticleRepository.listArticles db params).1.pagination.totalItems →
      (ArticleRepository.listArticles db params).1.pagination.totalItems ≤
        (ArticleRepository.listArticles db params).1.pagination.totalPages * params.pageSize
      ∧ (ArticleRepository.listArticles db params).1.pagination.totalPages * params.pageSize <
        (ArticleRepository.listArticles db params).1.pagination.totalItems + params.pageSize)
    ∧ ((ArticleRepository.listArticles db params).1.pagination.hasNextPage = true ↔
        params.page < (ArticleRepository.listArticles db params).1.pagination.totalPages)
    ∧ (db = [] → (ArticleRepository.listArticles db params).1.data = []
        ∧ (ArticleRepository.listArticles db params).1.pagination.totalPages = 0
        ∧ (ArticleRepository.listArticles db params).1.pagination.hasNextPage = false) := by
  have hb : 0 < params.pageSize := hps1
  refine ⟨?_, ?_, ?_, ?_⟩
  · intro h
    rw [listArticles_pagination_eq] at h ⊢
    simp only at h ⊢
    simp [h]
  · intro h
    rw [listArticles_pagination_eq] at h ⊢
    simp only at h ⊢
    have hne : ¬ db.length = 0 := by omega
    rw [if_neg hne]
    exact mathCeilDiv_bounds db.length params.pageSize hb
  · rw [listArticles_pagination_eq]
    simp only
    exact decide_eq_true_iff
  · intro h
    subst h
    refine ⟨?_, by rfl, by rfl⟩
    cases hdir : params.sortDirection <;>
      simp [ArticleRepository.listArticles, sortByCreatedAt, hdir]

/-- C4 witness: the metadata theorem applied at an empty table with page 1
and pageSize 10. -/
theorem C4_witness :
    ((ArticleRepository.listArticles [] ⟨1, 10, SortDirection.desc⟩).1.pagination.totalItems = 0 →
      (ArticleRepository.listArticles [] ⟨1, 10, SortDirection.desc⟩).1.pagination.totalPages = 0)
    ∧ (0 < (ArticleRepository.listArticles [] ⟨1, 10, SortDirection.desc⟩).1.pagination.totalItems →
      (ArticleRepository.listArticles [] ⟨1, 10, SortDirection.desc⟩).1.pagination.totalItems ≤
        (ArticleRepository.listArticles [] ⟨1, 10, SortDirection.desc⟩).1.pagination.totalPages * 10
      ∧ (ArticleRepository.listArticles [] ⟨1, 10, SortDirection.desc⟩).1.pagination.totalPages * 10 <
        (ArticleRepository.listArticles [] ⟨1, 10, SortDirection.desc⟩).1.pagination.totalItems + 10)
    ∧ ((ArticleRepository.listArticles [] ⟨1, 10, SortDirection.desc⟩).1.pagination.hasNextPage = true ↔
        1 < (ArticleRepository.listArticles [] ⟨1, 10, SortDirection.desc⟩).1.pagination.totalPages)
    ∧ (([] : List Article) = [] →
        (ArticleRepository.listArticles [] ⟨1, 10, SortDirection.desc⟩).1.data = []
        ∧ (ArticleRepository.listArticles [] ⟨1, 10, SortDirection.desc⟩).1.pagination.totalPages = 0
        ∧ (ArticleRepository.listArticles [] ⟨1, 10, SortDirection.desc⟩).1.pagination.hasNextPage = false) :=
  C4_pagination_metadata [] ⟨1, 10, SortDirection.desc⟩ (by decide) (by decide) (by decide)

/-- Every row of a date-range page satisfies the inclusive created_at bounds. -/
theorem listArticlesByDateRange_data_bounds (db : List Article)
    (params : GetArticlesByDatesParams) :
    ∀ r ∈ (ArticleRepository.listArticlesByDateRange db params).1.data,
      params.fromDate ≤ r.createdAt ∧ r.createdAt ≤ params.toDate := by
  intro r hr
  have hdata : (ArticleRepository.listArticlesByDateRange db params).1.data =
      ((sortByCreatedAt params.sortDirection (db.filter (fun x =>
          params.fromDate ≤ x.createdAt ∧ x.createdAt ≤ params.toDate))).drop
        ((params.page - 1) * params.pageSize)).take params.pageSize := rfl
  rw [hdata] at hr
  have h1 := List.mem_of_mem_take hr
  have h2 := List.mem_of_mem_drop h1
  have h3 : r ∈ db.filter (fun x =>
      params.fromDate ≤ x.createdAt ∧ x.createdAt ≤ params.toDate) := by
    cases hdir : params.sortDirection <;>
      (rw [hdir] at h2; simpa [sortByCreatedAt] using h2)
  have h4 := (List.mem_filter.mp h3).2
  simpa using h4

/-- C5: when from is strictly after to the service raises
InvalidDateRangeError with an empty statement log, so the repository is never
invoked; when from is at most to, the service result is exactly the
repository date-range call, whose page and count statements both carry the
inclusive created_at bounds and whose returned rows all lie in the inclusive
interval. -/
theorem C5_date_range_guard (db : List Article) (params : GetArticlesByDatesParams) :
    (params.fromDate > params.toDate →
       ArticleService.listArticlesByDateRange db params =
         (Except.error (ServiceError.invalidDateRange params.fromDate params.toDate), []))
    ∧ (params.fromDate ≤ params.toDate →
       ArticleService.listArticlesByDateRange db params =
         (Except.ok (ArticleRepository.listArticlesByDateRange db params).1,
          (ArticleRepository.listArticlesByDateRange db params).2)
       ∧ (ArticleRepository.listArticlesByDateRange db params).2 ≠ []
       ∧ ∀ r ∈ (ArticleRepository.listArticlesByDateRange db params).1.data,
           params.fromDate ≤ r.createdAt ∧ r.createdAt ≤ params.toDate) := by
  constructor
  · intro h
    unfold ArticleService.listArticlesByDateRange
    rw [if_pos h]
  · intro h
    refine ⟨?_, ?_, listArticlesByDateRange_data_bounds db params⟩
    · unfold ArticleService.listArticlesByDateRange
      rw [if_neg (by omega)]
    · intro hempty
      cases hempty

/-- C5 witness: the guard theorem applied at a request whose from (epoch 2)
is strictly after its to (epoch 1). -/
theorem C5_witness :
    ArticleService.listArticlesByDateRange [] ⟨2, 1, 1, 10, SortDirection.desc⟩ =
      (Except.error (ServiceError.invalidDateRange 2 1), []) :=
  (C5_date_range_guard [] ⟨2, 1, 1, 10, SortDirection.desc⟩).1 (by decide)

/-- The post-update database state of the service equals that of the
repository call it forwards to. -/
theorem updateArticle_service_state (db : List Article) (now : Int) (id : Nat)
    (changes : UpdateArticleInput) :
    (ArticleService.updateArticle db now id changes).1.2 =
      (ArticleRepository.updateArticle db now id changes).1.2 := by
  unfold ArticleService.updateArticle
  rcases h : ArticleRepository.updateArticle db now id changes with ⟨⟨res, db2⟩, stmts⟩
  cases res with
  | error m => rfl
  | ok o => cases o <;> rfl

/-- C6: a title-only update maps the stored rows by overwriting exactly the
title of the matching row and refreshing its updatedAt, leaving content,
photoUrl, createdAt and every other row untouched; and, for every update
input, the generated SET clause is exactly one assignment per supplied field
in source order title, content, photo_url with 1-based sequential positional
parameters. -/
theorem C6_partial_update_frame (db : List Article) (now : Int) (id : Nat) (t : String) :
    (ArticleService.updateArticle db now id ⟨some t, none, none⟩).1.2 =
      db.map (fun r => if r.id = id then { r with title := t, updatedAt := now } else r)
    ∧ (∀ input : UpdateArticleInput,
        (ArticleRepository.buildUpdateStatement input).1 =
          renderAssignments (suppliedColumns input)) := by
  constructor
  · rw [updateArticle_service_state]
    rfl
  · intro input
    rw [buildUpdateStatement_eq]

/-- The database state after a service delete is the rows whose id differs. -/
theorem deleteArticle_post_state (db : List Article) (id : Nat) :
    (ArticleService.deleteArticle db id).2 = db.filter (fun r => ¬ r.id = id) := by
  simp only [ArticleService.deleteArticle, ArticleRepository.deleteArticle]
  split <;> rfl

/-- When no stored row carries the id, the repository delete reports false
and removes nothing (while still issuing its single DELETE statement). -/
theorem deleteArticle_no_match (db : List Article) (id : Nat)
    (h : ∀ r ∈ db, r.id ≠ id) :
    ArticleRepository.deleteArticle db id =
      ((false, db), [⟨deleteQueryText, [DbValue.nat id]⟩]) := by
  have hf : db.filter (fun r => ¬ r.id = id) = db := by
    rw [List.filter_eq_self]
    intro a ha
    simpa using h a ha
  unfold ArticleRepository.deleteArticle
  rw [hf]
  simp

/-- No row of a post-delete state carries the deleted id. -/
theorem post_state_no_match (db : List Article) (id : Nat) :
    ∀ r ∈ db.filter (fun r => ¬ r.id = id), r.id ≠ id := by
  intro r hr
  have h := (List.mem_filter.mp hr).2
  simpa using h

/-- The service delete on a state holding no row with the id raises
ArticleNotFoundError and leaves the state unchanged. -/
theorem deleteArticle_service_no_match (db : List Article) (id : Nat)
    (h : ∀ r ∈ db, r.id ≠ id) :
    ArticleService.deleteArticle db id =
      (Except.error (ServiceError.articleNotFound id), db) := by
  simp only [ArticleService.deleteArticle, deleteArticle_no_match db id h]
  rfl

/-- C7: deleting an id with no matching row makes the repository return false
rather than raise, and the service raise ArticleNotFoundError; and from the
state any delete leaves behind, every repetition of deleting the same id is
the constant not-found outcome on the unchanged state; a delete of a present
id first succeeds. -/
theorem C7_delete_idempotent (db : List Article) (id : Nat) :
    ((∀ r ∈ db, r.id ≠ id) →
        ArticleRepository.deleteArticle db id =
          ((false, db), [⟨deleteQueryText, [DbValue.nat id]⟩])
        ∧ ArticleService.deleteArticle db id =
          (Except.error (ServiceError.articleNotFound id), db))
    ∧ ((∃ r ∈ db, r.id = id) → (ArticleService.deleteArticle db id).1 = Except.ok ())
    ∧ (∀ n : Nat,
        (fun s => (ArticleService.deleteArticle s id).2)^[n]
            (ArticleService.deleteArticle db id).2 =
          (ArticleService.deleteArticle db id).2
        ∧ ArticleService.deleteArticle
            ((fun s => (ArticleService.deleteArticle s id).2)^[n]
              (ArticleService.deleteArticle db id).2) id =
          (Except.error (ServiceError.articleNotFound id),
           (ArticleService.deleteArticle db id).2)) := by
  have hpost : (ArticleService.deleteArticle db id).2 =
      db.filter (fun r => ¬ r.id = id) := deleteArticle_post_state db id
  have hnm : ∀ r ∈ (ArticleService.deleteArticle db id).2, r.id ≠ id := by
    rw [hpost]; exact post_state_no_match db id
  have hfix : ArticleService.deleteArticle (ArticleService.deleteArticle db id).2 id =
      (Except.error (ServiceError.articleNotFound id),
       (ArticleService.deleteArticle db id).2) := by
    have h1 := deleteArticle_service_no_match _ id hnm
    have h2 := deleteArticle_post_state (ArticleService.deleteArticle db id).2 id
    rw [h1]
  refine ⟨?_, ?_, ?_⟩
  · intro h
    exact ⟨deleteArticle_no_match db id h, deleteArticle_service_no_match db id h⟩
  · rintro ⟨r, hr, hrid⟩
    have hlen : (db.filter (fun x => ¬ x.id = id)).length < db.length := by
      have hle := List.length_filter_le (fun x => decide (¬ x.id = id)) db
      have hne : ¬ (db.filter (fun x => ¬ x.id = id)).length = db.length := by
        intro heq
        have hall := List.filter_length_eq_length.mp heq
        have := hall r hr
        simp [hrid] at this
      omega
    have hrepo : (ArticleRepository.deleteArticle db id).1.1 = true := by
      unfold ArticleRepository.deleteArticle
      simp only [decide_eq_true_iff]
      omega
    simp only [ArticleService.deleteArticle, hrepo, if_true]
  · intro n
    induction n with
    | zero => exact ⟨rfl, hfix⟩
    | succ k ih =>
        have hstep : (fun s => (ArticleService.deleteArticle s id).2)^[k + 1]
            (ArticleService.deleteArticle db id).2 =
            (ArticleService.deleteArticle db id).2 := by
          rw [Function.iterate_succ_apply', ih.1]
          show (ArticleService.deleteArticle
              (ArticleService.deleteArticle db id).2 id).2 =
            (ArticleService.deleteArticle db id).2
          rw [hfix]
        exact ⟨hstep, by rw [hstep]; exact hfix⟩

/-- C7 witness: the idempotence theorem applied at a one-row table: deleting
id 1 succeeds, and deleting id 2 from the empty table reports not found. -/
theorem C7_witness :
    (ArticleService.deleteArticle [⟨1, "t", "c", none, 0, 0⟩] 1).1 = Except.ok ()
    ∧ ArticleService.deleteArticle [] 2 =
        (Except.error (ServiceError.articleNotFound 2), []) :=
  ⟨(C7_delete_idempotent [⟨1, "t", "c", none, 0, 0⟩] 1).2.1
      ⟨⟨1, "t", "c", none, 0, 0⟩, by simp, rfl⟩,
   ((C7_delete_idempotent [] 2).1 (by simp)).2⟩

/-- C8 counterexample: the claim says generateArticle never creates an
article with empty provider output silently substituted.  With a configured
client and endpoint, a provider response whose first choice has null content
makes the service substitute the empty string for both title and content and
persist the resulting empty article. -/
theorem C8_counterexample :
    ArticleService.generateArticle [] 1 0 true
        ⟨"https://api.openai.com/v1", ""⟩ ⟨[⟨⟨none⟩⟩]⟩ ⟨"gpt-4o", []⟩ =
      ((Except.ok ⟨1, "", "", none, 0, 0⟩, [⟨1, "", "", none, 0, 0⟩]),
       some ("gpt-4o", [])) := by
  rfl

/-- C8 (amended): generateArticle persists the provider draft through the
same createArticle path a direct create uses, and throws, persisting nothing,
when the api client or the endpoint configuration is missing; however, when
the provider responds with a null first-choice content, the empty string is
silently substituted for both title and content and an empty article is
created. -/
theorem C8_amended_generate (db : List Article) (newId : Nat) (now : Int)
    (config : AiArticleProviderConfig) (response : ChatCompletionResponse)
    (params : GenerateArticleParams) :
    (∀ hasApiClient : Bool, hasApiClient = false ∨ config.endpoint = "" →
       ArticleService.generateArticle db newId now hasApiClient config response params =
         ((Except.error (ServiceError.providerError
             "AI API client and configuration are required"), db), none))
    ∧ (∀ input : CreateArticleInput,
        AiGenerateArticleRepository.generateArticle true config response params =
          (Except.ok input, some (params.model, params.messages)) →
        ArticleService.generateArticle db newId now true config response params =
          ((Except.ok (ArticleRepository.createArticle db newId now input).1.1,
            (ArticleRepository.createArticle db newId now input).1.2),
           some (params.model, params.messages)))
    ∧ (config.endpoint ≠ "" → ∀ ch rest, response.choices = ch :: rest →
        ch.message.content = none →
        (ArticleService.generateArticle db newId now true config response params).1.1 =
          Except.ok { id := newId, title := "", content := "", photoUrl := none,
                      createdAt := now, updatedAt := now }) := by
  refine ⟨?_, ?_, ?_⟩
  · intro hasApiClient h
    cases h with
    | inl hb =>
        subst hb
        rfl
    | inr he =>
        simp [ArticleService.generateArticle,
          AiGenerateArticleRepository.generateArticle,
          AiGenerateArticleRepository.fetchArticleFromProvider, he, Except.map]
  · intro input h
    unfold ArticleService.generateArticle
    rw [h]
  · intro he ch rest hch hcontent
    simp [ArticleService.generateArticle,
      AiGenerateArticleRepository.generateArticle,
      AiGenerateArticleRepository.fetchArticleFromProvider, he, hch, hcontent,
      ArticleRepository.createArticle, Except.map]

/-- C8 witness: the amended theorem applied with a missing api client. -/
theorem C8_witness :
    ArticleService.generateArticle [] 1 0 false ⟨"e", "k"⟩ ⟨[]⟩ ⟨"m", []⟩ =
      ((Except.error (ServiceError.providerError
          "AI API client and configuration are required"), []), none) :=
  (C8_amended_generate [] 1 0 ⟨"e", "k"⟩ ⟨[]⟩ ⟨"m", []⟩).1 false (Or.inl rfl)

/-- C9: for every update input the builder returns as many values as
assignments, the assignment at 0-based index k references exactly the
positional parameter k plus 1, and the full UPDATE statement binds the set
values followed by the article id as the final parameter, at position one
past the number of assignments. -/
theorem C9_update_builder_invariant (input : UpdateArticleInput) :
    (ArticleRepository.buildUpdateStatement input).2.length =
      (ArticleRepository.buildUpdateStatement input).1.length
    ∧ (∀ (k : Nat) (hk : k < (ArticleRepository.buildUpdateStatement input).1.length),
        ∃ col : UpdateColumn,
          (ArticleRepository.buildUpdateStatement input).1.get ⟨k, hk⟩ =
            col.sqlName ++ " = $" ++ toString (k + 1))
    ∧ (∀ (db : List Article) (now : Int) (id : Nat),
        (ArticleRepository.buildUpdateStatement input).1 ≠ [] →
        (ArticleRepository.updateArticle db now id input).2 =
          [⟨"UPDATE articles SET " ++
              String.intercalate ", " (ArticleRepository.buildUpdateStatement input).1 ++
              " WHERE id = $" ++
              toString ((ArticleRepository.buildUpdateStatement input).1.length + 1) ++
              " RETURNING id, title, content, photo_url, created_at, updated_at;",
            (ArticleRepository.buildUpdateStatement input).2 ++ [DbValue.nat id]⟩]) := by
  rcases input with ⟨t, c, p⟩
  rcases t with _ | t <;> rcases c with _ | c <;> rcases p with _ | p
  · refine ⟨rfl, ?_, ?_⟩
    · intro k hk
      exact absurd hk (by change ¬ (k < 0); omega)
    · intro db now id hne
      exact absurd rfl hne
  · refine ⟨rfl, ?_, ?_⟩
    · intro k hk
      match k, hk with
      | 0, _ => exact ⟨UpdateColumn.photoUrl, rfl⟩
      | n + 1, hk => exact absurd hk (by change ¬ (n + 1 < 1); omega)
    · intro db now id hne
      rfl
  · refine ⟨rfl, ?_, ?_⟩
    · intro k hk
      match k, hk with
      | 0, _ => exact ⟨UpdateColumn.content, rfl⟩
      | n + 1, hk => exact absurd hk (by change ¬ (n + 1 < 1); omega)
    · intro db now id hne
      rfl
  · refine ⟨rfl, ?_, ?_⟩
    · intro k hk
      match k, hk with
      | 0, _ => exact ⟨UpdateColumn.content, rfl⟩
      | 1, _ => exact ⟨UpdateColumn.photoUrl, rfl⟩
      | n + 2, hk => exact absurd hk (by change ¬ (n + 2 < 2); omega)
    · intro db now id hne
      rfl
  · refine ⟨rfl, ?_, ?_⟩
    · intro k hk
      match k, hk with
      | 0, _ => exact ⟨UpdateColumn.title, rfl⟩
      | n + 1, hk => exact absurd hk (by change ¬ (n + 1 < 1); omega)
    · intro db now id hne
      rfl
  · refine ⟨rfl, ?_, ?_⟩
    · intro k hk
      match k, hk with
      | 0, _ => exact ⟨UpdateColumn.title, rfl⟩
      | 1, _ => exact ⟨UpdateColumn.photoUrl, rfl⟩
      | n + 2, hk => exact absurd hk (by change ¬ (n + 2 < 2); omega)
    · intro db now id hne
      rfl
  · refine ⟨rfl, ?_, ?_⟩
    · intro k hk
      match k, hk with
      | 0, _ => exact ⟨UpdateColumn.title, rfl⟩
      | 1, _ => exact ⟨UpdateColumn.content, rfl⟩
      | n + 2, hk => exact absurd hk (by change ¬ (n + 2 < 2); omega)
    · intro db now id hne
      rfl
  · refine ⟨rfl, ?_, ?_⟩
    · intro k hk
      match k, hk with
      | 0, _ => exact ⟨UpdateColumn.title, rfl⟩
      | 1, _ => exact ⟨UpdateColumn.content, rfl⟩
      | 2, _ => exact ⟨UpdateColumn.photoUrl, rfl⟩
      | n + 3, hk => exact absurd hk (by change ¬ (n + 3 < 3); omega)
    · intro db now id hne
      rfl

/-- C9 witness: the invariant applied at a title-only update of article 7. -/
theorem C9_witness :
    (ArticleRepository.buildUpdateStatement ⟨some "x", none, none⟩).2.length =
      (ArticleRepository.buildUpdateStatement ⟨some "x", none, none⟩).1.length
    ∧ (ArticleRepository.updateArticle [] 0 7 ⟨some "x", none, none⟩).2 =
        [⟨"UPDATE articles SET " ++
            String.intercalate ", "
              (ArticleRepository.buildUpdateStatement ⟨some "x", none, none⟩).1 ++
            " WHERE id = $" ++
            toString ((ArticleRepository.buildUpdateStatement
              ⟨some "x", none, none⟩).1.length + 1) ++
            " RETURNING id, title, content, photo_url, created_at, updated_at;",
          (ArticleRepository.buildUpdateStatement ⟨some "x", none, none⟩).2 ++
            [DbValue.nat 7]⟩] :=
  ⟨(C9_update_builder_invariant ⟨some "x", none, none⟩).1,
   (C9_update_builder_invariant ⟨some "x", none, none⟩).2.2 [] 0 7 (by decide)⟩

/-- C10: the generate-body schema places no lower bound on messages: any body
with a non-empty model string and an empty messages array validates, and the
validated request reaches the provider call with zero messages. -/
theorem C10_generate_empty_messages (model : String) (hm : 1 ≤ model.length) :
    generateArticleSchemaParse ⟨some model, some []⟩ = Except.ok ⟨model, []⟩
    ∧ (∀ (db : List Article) (newId : Nat) (now : Int)
        (config : AiArticleProviderConfig) (response : ChatCompletionResponse),
        config.endpoint ≠ "" →
        (ArticleService.generateArticle db newId now true config response
            ⟨model, []⟩).2 = some (model, [])) := by
  constructor
  · simp [generateArticleSchemaParse, hm]
    rfl
  · intro db newId now config response he
    have hfetch : (AiGenerateArticleRepository.fetchArticleFromProvider true config
        response ⟨model, []⟩).2 = some (model, []) := by
      simp only [AiGenerateArticleRepository.fetchArticleFromProvider]
      rw [if_pos (by simp [he])]
      cases response.choices <;> rfl
    unfold ArticleService.generateArticle AiGenerateArticleRepository.generateArticle
    rcases hf : AiGenerateArticleRepository.fetchArticleFromProvider true config
        response ⟨model, []⟩ with ⟨res, req⟩
    have hreq : req = some (model, []) := by rw [hf] at hfetch; exact hfetch
    subst hreq
    cases res <;> rfl

/-- C10 witness: the schema theorem applied at the model gpt-4o with an empty
message list and a configured provider. -/
theorem C10_witness :
    generateArticleSchemaParse ⟨some "gpt-4o", some []⟩ =
      Except.ok ⟨"gpt-4o", []⟩
    ∧ (ArticleService.generateArticle [] 1 0 true ⟨"https://api.openai.com/v1", ""⟩
        ⟨[]⟩ ⟨"gpt-4o", []⟩).2 = some ("gpt-4o", []) :=
  ⟨(C10_generate_empty_messages "gpt-4o" (by decide)).1,
   (C10_generate_empty_messages "gpt-4o" (by decide)).2 [] 1 0
     ⟨"https://api.openai.com/v1", ""⟩ ⟨[]⟩ (by decide)⟩
